import Mathlib

/-
Verification of the cortexalgo-desktop trading agent core.

The definitions below are a shallow embedding of the JavaScript source:

* services/accountManager.js  — account registry and kill-switch authority
  (module-level `accounts` Map and `masterKillSwitch` boolean);
* services/signalRService.js  — the TopstepX client wrapper whose init
  routine loads accounts and then turns the master kill switch on;
* main.js                     — orchestrator: unified connection state
  (updateTrayIcon / setState) and the trade-directive handler;
* services/orderExecutionService.js — action/symbol mapping tables and
  order submission;
* services/authService.js     — broker token cache (getAccessToken);
* services/securityService.js — the sliding-window RateLimiter;
* services/cloudApiService.js — cloud token refresh (refreshAccessToken).

JavaScript `Map` objects are modelled as association lists with
`Map.set` / `Map.get` semantics (update-in-place keeps insertion order,
new keys append).  Network I/O is modelled by explicit oracle arguments
(the response a given HTTP call would produce), and every network call
the code would issue is recorded in an explicit trace so that claims
about "no network call is made" are expressible.
-/

/-- JS `Map.get(k)`: the value stored under key `k`, if any. -/
def mapGet {α : Type} : List (Nat × α) → Nat → Option α
  | [], _ => none
  | (k', v') :: rest, k => if k' = k then some v' else mapGet rest k

/-- JS `Map.set(k, v)`: update-in-place if the key exists (keeping its
position), otherwise append the new entry. -/
def mapSet {α : Type} : List (Nat × α) → Nat → α → List (Nat × α)
  | [], k, v => [(k, v)]
  | (k', v') :: rest, k, v =>
    if k' = k then (k, v) :: rest else (k', v') :: mapSet rest k v

/-- A fill event pushed by the broker realtime feed (opaque payload). -/
structure Fill where
  fillId : Nat
  deriving Repr, DecidableEq

/-- An open position entry (opaque payload). -/
structure Position where
  posId : Nat
  deriving Repr, DecidableEq

/-- An account object as supplied to `initializeAccounts` by the broker
API (or by mock data).  The optional fields model properties the caller
may or may not have set on the raw JS object; `initializeAccounts`
spreads the object and then overwrites `tradingEnabled`, `pnl`,
`openPositions` and `recentFills`, so the optional values here are
exactly the ones the registry discards. -/
structure InputAccount where
  id : Nat
  name : String
  tradingEnabled : Option Bool := none
  canTradeFlag : Option Bool := none
  pnl : Option Int := none
  openPositions : Option (List Position) := none
  recentFills : Option (List Fill) := none
  balance : Option Int := none
  deriving Repr, DecidableEq

/-- The per-account state stored in the registry
(accountManager.js, `initializeAccounts` lines 39-51).  `name`,
`canTradeFlag` and `balance` survive the JS spread unchanged; the
remaining fields are set by the registry itself. -/
structure AccountState where
  id : Nat
  name : String
  canTradeFlag : Option Bool
  balance : Option Int
  tradingEnabled : Bool
  pnl : Int
  openPositions : List Position
  recentFills : List Fill
  lastUpdate : Int
  deriving Repr, DecidableEq

/-- The account manager's module-level state: the `accounts` Map and the
`masterKillSwitch` boolean (accountManager.js lines 24-25). -/
structure AMState where
  accounts : List (Nat × AccountState)
  masterKillSwitch : Bool
  deriving Repr, DecidableEq

/-- State at module load: `accounts = new Map()`, `masterKillSwitch = false`. -/
def initialAMState : AMState := { accounts := [], masterKillSwitch := false }

/-- The account state built for one input account inside
`initializeAccounts`: spread of the input, then `tradingEnabled: true`,
`pnl: 0`, `openPositions: []`, `recentFills: []`, `lastUpdate` set to the
current time (modelled as 0; no claim depends on its value). -/
def mkAccountState (a : InputAccount) : AccountState :=
  { id := a.id
    name := a.name
    canTradeFlag := a.canTradeFlag
    balance := a.balance
    tradingEnabled := true
    pnl := 0
    openPositions := []
    recentFills := []
    lastUpdate := 0 }

/-- accountManager.initializeAccounts (lines 31-54): for each account in
the list, `accounts.set(account.id, accountState)`.  Note the existing
Map is NOT cleared first. -/
def initializeAccounts (s : AMState) (accountList : List InputAccount) : AMState :=
  { s with
    accounts := accountList.foldl (fun m a => mapSet m a.id (mkAccountState a)) s.accounts }

/-- A partial-update object passed to accountManager.updateAccount
(`Object.assign(account, updates, {lastUpdate: ...})`); only fields a
claim could observe are modelled. -/
structure AccountUpdate where
  pnl : Option Int := none
  balance : Option Int := none
  tradingEnabled : Option Bool := none
  openPositions : Option (List Position) := none
  deriving Repr, DecidableEq

/-- Merge of an update object into a stored account (Object.assign),
then `lastUpdate` is refreshed. -/
def applyAccountUpdate (a : AccountState) (u : AccountUpdate) (now : Int) : AccountState :=
  { a with
    pnl := u.pnl.getD a.pnl
    balance := match u.balance with | some b => some b | none => a.balance
    tradingEnabled := u.tradingEnabled.getD a.tradingEnabled
    openPositions := u.openPositions.getD a.openPositions
    lastUpdate := now }

/-- accountManager.updateAccount (lines 78-88): no-op (with a warning)
on an unknown id, otherwise merge and stamp `lastUpdate`. -/
def updateAccount (s : AMState) (accountId : Nat) (u : AccountUpdate) (now : Int) : AMState :=
  match mapGet s.accounts accountId with
  | none => s
  | some a =>
    { s with accounts := mapSet s.accounts accountId (applyAccountUpdate a u now) }

/-- accountManager.addFill (lines 95-111): unshift the fill, cap the
list at the 50 most recent; no-op on an unknown id. -/
def addFill (s : AMState) (accountId : Nat) (fillData : Fill) : AMState :=
  match mapGet s.accounts accountId with
  | none => s
  | some a =>
    let fills := fillData :: a.recentFills
    let fills := if fills.length > 50 then fills.take 50 else fills
    { s with accounts := mapSet s.accounts accountId { a with recentFills := fills } }

/-- accountManager.setMasterKillSwitch (lines 140-143). -/
def setMasterKillSwitch (s : AMState) (enabled : Bool) : AMState :=
  { s with masterKillSwitch := enabled }

/-- accountManager.setAccountTrading (lines 158-169): returns the
updated state and the boolean result (false for an unknown id). -/
def setAccountTrading (s : AMState) (accountId : Nat) (enabled : Bool) : AMState × Bool :=
  match mapGet s.accounts accountId with
  | none => (s, false)
  | some a =>
    ({ s with accounts := mapSet s.accounts accountId { a with tradingEnabled := enabled } }, true)

/-- accountManager.canTrade (lines 177-191): master kill switch takes
precedence; unknown accounts yield false (never throw). -/
def canTrade (s : AMState) (accountId : Nat) : Bool :=
  if !s.masterKillSwitch then
    false
  else
    match mapGet s.accounts accountId with
    | none => false
    | some account => account.tradingEnabled

/-- accountManager.reset (lines 216-220): clear the Map, master switch off. -/
def reset (_s : AMState) : AMState :=
  { accounts := [], masterKillSwitch := false }

/-- One account-manager operation, as invocable by the realtime feed,
operator UI or cloud commands after module load. -/
inductive AMOp where
  | initAccounts (list : List InputAccount)
  | update (accountId : Nat) (u : AccountUpdate) (now : Int)
  | fill (accountId : Nat) (f : Fill)
  | setTrading (accountId : Nat) (enabled : Bool)
  | setMaster (enabled : Bool)
  | doReset
  deriving Repr, DecidableEq

/-- Whether an operation is an explicit master-kill-switch enable. -/
def isMasterEnable : AMOp → Bool
  | .setMaster true => true
  | _ => false

/-- Apply one operation to the account-manager state. -/
def applyOp (s : AMState) : AMOp → AMState
  | .initAccounts list => initializeAccounts s list
  | .update accountId u now => updateAccount s accountId u now
  | .fill accountId f => addFill s accountId f
  | .setTrading accountId enabled => (setAccountTrading s accountId enabled).1
  | .setMaster enabled => setMasterKillSwitch s enabled
  | .doReset => reset s

/-- Fold a sequence of operations over the state. -/
def applyOps (s : AMState) (ops : List AMOp) : AMState :=
  ops.foldl applyOp s

/-- The tail of signalRService initialize (lines 240-243): after the
account list is obtained, `accountManager.initializeAccounts(accounts)`
followed immediately by `accountManager.setMasterKillSwitch(true)`. -/
def clientInitAndEnable (s : AMState) (accounts : List InputAccount) : AMState :=
  setMasterKillSwitch (initializeAccounts s accounts) true

/-- The unified application states (main.js APP_STATES, lines 592-598). -/
inductive AppState where
  | connecting
  | connected
  | disconnected
  | deactivated
  | warning
  deriving Repr, DecidableEq

/-- The cloud channel's connection sub-state, as reported through the
onConnectionStateChanged callback and stored in main.js
`cloudConnectionState` (line 581). -/
inductive CloudConnState where
  | disconnected
  | connected
  | reconnecting
  | error
  deriving Repr, DecidableEq

/-- Derivation of the effective (displayed) state inside
main.js updateTrayIcon (lines 811-817): start from `currentState` and
overwrite with Warning when TopstepX is connected but the cloud is not. -/
def effectiveState (currentState : AppState) (cloudConnectionState : CloudConnState) : AppState :=
  if currentState = AppState.connected ∧ cloudConnectionState ≠ CloudConnState.connected then
    AppState.warning
  else
    currentState

/-- The parameter object of orderExecutionService.submitOrder. -/
structure SubmitParams where
  accountId : Nat
  action : String
  symbol : String
  lots : Nat
  deriving Repr, DecidableEq

/-- The object submitOrder resolves to.  The echoed request context
(accountId, symbol, side, ...) and raw response data carried by the JS
object are elided: no claim refers to them. -/
structure OrderResult where
  success : Bool
  orderId : Option Nat := none
  status : Option Nat := none
  error : Option String := none
  deriving Repr, DecidableEq

/-- An inbound trade directive (flat structure relayed by the cloud). -/
structure TradeDirective where
  directiveId : String
  accountId : Nat
  symbol : String
  action : String
  price : Int
  contracts : Nat
  reason : String
  timestamp : String
  deriving Repr, DecidableEq

/-- A notification pushed to the renderer (UI collaborator) by
main.js handleTradeDirective via webContents.send; only the channel and
the fields claims refer to are modelled. -/
inductive UiNotif where
  | signalRejected (directiveId : String) (reason : String)
  | signalReceived (directiveId : String)
  | orderSubmitted (directiveId : String) (result : OrderResult)
  | orderFailed (directiveId : String) (error : Option String)
  deriving Repr, DecidableEq

/-- What one run of the directive handler did: whether
orderExecutionService.submitOrder was invoked, and the ordered UI
notifications it sent. -/
structure HandleResult where
  submitCalled : Bool
  notifications : List UiNotif
  deriving Repr, DecidableEq

/-- The orchestrator state read by handleTradeDirective. -/
structure OrchestratorState where
  isTopstepInit : Bool
  am : AMState
  deriving Repr, DecidableEq

/-- The argument object handleTradeDirective passes to submitOrder
(main.js lines 1140-1145): `lots` is the directive's `contracts`. -/
def toSubmitParams (d : TradeDirective) : SubmitParams :=
  { accountId := d.accountId, action := d.action, symbol := d.symbol, lots := d.contracts }

/-- The outcome notification handleTradeDirective sends after the order
attempt (main.js lines 1147-1179): order-submitted on success,
order-failed with the result's error otherwise. -/
def orderOutcomeNotif (d : TradeDirective) (result : OrderResult) : UiNotif :=
  if result.success then
    UiNotif.orderSubmitted d.directiveId result
  else
    UiNotif.orderFailed d.directiveId result.error

/-- main.js handleTradeDirective (lines 1080-1197).  The inner call to
orderExecutionService.submitOrder is abstracted as the oracle `submit`
(its outcome depends on the network); the handler's own try/catch is
subsumed because the oracle is total.  Returns what was invoked and the
notifications sent, in order. -/
def handleTradeDirective (st : OrchestratorState) (d : TradeDirective)
    (submit : SubmitParams → OrderResult) : HandleResult :=
  if !st.isTopstepInit then
    { submitCalled := false, notifications := [] }
  else if !canTrade st.am d.accountId then
    { submitCalled := false
      notifications := [UiNotif.signalRejected d.directiveId "Kill switch enabled"] }
  else
    let result := submit (toSubmitParams d)
    { submitCalled := true
      notifications := [UiNotif.signalReceived d.directiveId, orderOutcomeNotif d result] }

/-- orderExecutionService.mapActionToSide (lines 114-124). -/
def mapActionToSide (action : String) : Option String :=
  if action = "ENTRY_LONG" then some "BUY"
  else if action = "ENTRY_SHORT" then some "SELL"
  else if action = "EXIT" then some "CLOSE"
  else if action = "EXIT_LONG" then some "SELL"
  else if action = "EXIT_SHORT" then some "BUY"
  else none

/-- orderExecutionService.mapSymbolToContractId (lines 131-140). -/
def mapSymbolToContractId (symbol : String) : Option String :=
  if symbol = "NQ" then some "CON.F.US.ENQ.Z25"
  else if symbol = "ES" then some "CON.F.US.EP.Z25"
  else if symbol = "YM" then some "CON.F.US.YM.Z25"
  else if symbol = "RTY" then some "CON.F.US.RTY.Z25"
  else none

/-- config.TOKEN_LIFETIME_MS = 23.5 * 60 * 60 * 1000. -/
def TOKEN_LIFETIME_MS : Int := 84600000

/-- authService's module-level token cache (lines 8-9). -/
structure AuthState where
  currentToken : Option String
  tokenExpiryTime : Option Int
  deriving Repr, DecidableEq

/-- Oracle for the auth-related network traffic one submitOrder
invocation could trigger: the current time, the outcome a
/api/Auth/validate call would produce (the refreshed token, or none for
any failure) and the outcome a /api/Auth/loginKey call would produce
(the token, or the thrown error's message). -/
structure AuthEnv where
  now : Int
  validateResp : Option String
  loginResp : Except String String
  deriving Repr

/-- One network call made during a submitOrder invocation. -/
inductive NetCall where
  | authValidate
  | authLogin
  | orderPlace (accountId : Nat) (contractId : String) (side : Nat) (orderType : Nat) (size : Nat)
  deriving Repr, DecidableEq

/-- Whether a network call is an order placement. -/
def isOrderPlace : NetCall → Bool
  | .orderPlace _ _ _ _ _ => true
  | _ => false

/-- authService.loginWithApiKey (lines 29-65): POST /api/Auth/loginKey;
on success caches the token with a fresh expiry, otherwise throws. -/
def loginWithApiKey (st : AuthState) (env : AuthEnv) :
    Except String String × AuthState × List NetCall :=
  match env.loginResp with
  | .ok tok =>
    (.ok tok, { currentToken := some tok, tokenExpiryTime := some (env.now + TOKEN_LIFETIME_MS) },
      [NetCall.authLogin])
  | .error e => (.error e, st, [NetCall.authLogin])

/-- authService.getAccessToken (lines 108-124): cached token while
unexpired; otherwise validate-and-refresh (never throws, returns none on
failure), falling back to a full login. -/
def getAccessToken (st : AuthState) (env : AuthEnv) :
    Except String String × AuthState × List NetCall :=
  match st.currentToken, st.tokenExpiryTime with
  | some tok, some exp =>
    if env.now < exp then
      (.ok tok, st, [])
    else
      match env.validateResp with
      | some newTok =>
        (.ok newTok,
          { currentToken := some newTok, tokenExpiryTime := some (env.now + TOKEN_LIFETIME_MS) },
          [NetCall.authValidate])
      | none =>
        let (r, st', calls) := loginWithApiKey st env
        (r, st', NetCall.authValidate :: calls)
  | some _, none =>
    match env.validateResp with
    | some newTok =>
      (.ok newTok,
        { currentToken := some newTok, tokenExpiryTime := some (env.now + TOKEN_LIFETIME_MS) },
        [NetCall.authValidate])
    | none =>
      let (r, st', calls) := loginWithApiKey st env
      (r, st', NetCall.authValidate :: calls)
  | none, _ => loginWithApiKey st env

/-- orderExecutionService.submitOrder (lines 21-107): obtain a token,
map the action, map the symbol, then POST the market order
(`side: side === 'BUY' ? 0 : 1`, `type: 2`, `size: lots`).  The order
endpoint's reply is the oracle `orderResp` (orderId and status, or the
error the call would raise).  Every error path is caught and turned into
a `success := false` result — the function never throws past its
boundary.  The returned trace lists every network call made. -/
def submitOrder (st : AuthState) (env : AuthEnv)
    (orderResp : Except String (Nat × Nat)) (p : SubmitParams) :
    OrderResult × AuthState × List NetCall :=
  match getAccessToken st env with
  | (.error msg, st', calls) => ({ success := false, error := some msg }, st', calls)
  | (.ok _, st', calls) =>
    match mapActionToSide p.action with
    | none => ({ success := false, error := some ("Invalid action: " ++ p.action) }, st', calls)
    | some side =>
      match mapSymbolToContractId p.symbol with
      | none => ({ success := false, error := some ("Unknown symbol: " ++ p.symbol) }, st', calls)
      | some contractId =>
        let call := NetCall.orderPlace p.accountId contractId (if side = "BUY" then 0 else 1) 2 p.lots
        match orderResp with
        | .ok (oid, stat) =>
          ({ success := true, orderId := some oid, status := some stat }, st', calls ++ [call])
        | .error e =>
          ({ success := false, error := some e }, st', calls ++ [call])

/-- securityService.RateLimiter (part of cloudApiService's guards):
`maxRequests` per `windowMs` sliding window, over a list of recorded
request timestamps (milliseconds). -/
structure RateLimiter where
  maxRequests : Nat
  windowMs : Int
  requests : List Int
  deriving Repr, DecidableEq

/-- Math.ceil(a / b) for integers with b > 0. -/
def ceilDivInt (a b : Int) : Int := -((-a).fdiv b)

/-- The seconds-until-reset figure in the rate-limit error:
Math.ceil((oldestRequest + windowMs - now) / 1000). -/
def secondsUntilReset (oldest windowMs now : Int) : Int :=
  ceilDivInt (oldest + windowMs - now) 1000

/-- The rate-limit error message text. -/
def rateLimitMessage (seconds : Int) : String :=
  "Rate limit exceeded. Try again in " ++ toString seconds ++ " seconds."

/-- securityService RateLimiter.checkLimit (lines 85-104): prune
timestamps outside the window (this mutation persists even on failure),
throw when the pruned count already reached the maximum, otherwise
record the new attempt. -/
def checkLimit (rl : RateLimiter) (now : Int) : RateLimiter × Except String Unit :=
  let pruned := rl.requests.filter (fun t => now - t < rl.windowMs)
  if pruned.length ≥ rl.maxRequests then
    let oldest := (pruned.min?).getD 0
    ({ rl with requests := pruned },
      .error (rateLimitMessage (secondsUntilReset oldest rl.windowMs now)))
  else
    ({ rl with requests := pruned ++ [now] }, .ok ())

/-- Run checkLimit at each time in turn, recording each call's success. -/
def runCalls (rl : RateLimiter) : List Int → RateLimiter × List Bool
  | [] => (rl, [])
  | t :: ts =>
    let step := checkLimit rl t
    let rest := runCalls step.1 ts
    (rest.1, (step.2.toBool) :: rest.2)

/-- The body the cloud `/v1/auth/refresh` endpoint answered with, when
the HTTP call succeeded at the transport level. -/
structure CloudRefreshResponse where
  accessToken : Option String
  refreshToken : Option String
  deriving Repr, DecidableEq

/-- The object cloudApiService.refreshAccessToken resolves to. -/
structure CloudRefreshResult where
  success : Bool
  accessToken : Option String := none
  refreshToken : Option String := none
  error : Option String := none
  deriving Repr, DecidableEq

/-- cloudApiService.refreshAccessToken (the current cloudApiService.js,
lines 159-209), response handling: on a body carrying an accessToken it
succeeds with that access token and — per the source comment "Refresh
token doesn't change" — echoes back `currentRefreshToken`, never reading
any refreshToken the response carries; any other outcome (transport
failure, or a body without accessToken, whose thrown Error has no
`.response`) yields the generic failure.  The rate-limit guard at the
top of the function is the tokenRefresh RateLimiter modelled above; it
only turns the call into an early failure and does not affect which
token fields a successful result carries, so it is left out here. -/
def refreshAccessToken (currentRefreshToken : String) (resp : Option CloudRefreshResponse) :
    CloudRefreshResult :=
  match resp with
  | none => { success := false, error := some "Token refresh failed" }
  | some r =>
    match r.accessToken with
    | some newAccess =>
      { success := true, accessToken := some newAccess, refreshToken := some currentRefreshToken }
    | none => { success := false, error := some "Token refresh failed" }

/- ===================== Theorems ===================== -/

/-- Helper: `mapGet` after `mapSet` at the same key. -/
theorem mapGet_mapSet_self {α : Type} (m : List (Nat × α)) (k : Nat) (v : α) :
    mapGet (mapSet m k v) k = some v := by
  induction m with
  | nil => simp [mapSet, mapGet]
  | cons p rest ih =>
    by_cases h : p.1 = k
    · simp [mapSet, h, mapGet]
    · simp [mapSet, h, mapGet, ih]

/-- Helper: `mapGet` after `mapSet` at a different key. -/
theorem mapGet_mapSet_ne {α : Type} (m : List (Nat × α)) (k k' : Nat) (v : α)
    (h : k ≠ k') : mapGet (mapSet m k v) k' = mapGet m k' := by
  induction m with
  | nil => simp [mapSet, mapGet, h]
  | cons p rest ih =>
    by_cases hp : p.1 = k
    · simp [mapSet, hp, mapGet, h]
    · by_cases hp' : p.1 = k'
      · simp [mapSet, hp, mapGet, hp', Ne.symm h]
      · simp [mapSet, hp, mapGet, hp', ih]

/-- C1: for an account id present in the registry, `canTrade` is the
conjunction of the master kill switch and that account's
`tradingEnabled` flag (over all four boolean combinations, since the
statement is universally quantified over the stored state); for an id
not present, `canTrade` is false regardless of the master switch.  The
function is total, so it never throws. -/
theorem canTrade_masterAndAccount (s : AMState) (accountId : Nat) :
    (∀ a, mapGet s.accounts accountId = some a →
      canTrade s accountId = (s.masterKillSwitch && a.tradingEnabled))
    ∧ (mapGet s.accounts accountId = none → canTrade s accountId = false) := by
  constructor
  · intro a ha
    cases hm : s.masterKillSwitch with
    | false => simp [canTrade, hm]
    | true => simp [canTrade, hm, ha]
  · intro ha
    cases hm : s.masterKillSwitch with
    | false => simp [canTrade, hm]
    | true => simp [canTrade, hm, ha]

/-- Witness for C1: a concrete registry holding account 7 with
`tradingEnabled = true` under an enabled master switch, and a lookup of
the absent id 9. -/
theorem canTrade_masterAndAccount_witness :
    (mapGet (initializeAccounts (setMasterKillSwitch initialAMState true)
        [{ id := 7, name := "A" }]).accounts 7
      = some (mkAccountState { id := 7, name := "A" }))
    ∧ canTrade (initializeAccounts (setMasterKillSwitch initialAMState true)
        [{ id := 7, name := "A" }]) 7 = true
    ∧ canTrade (initializeAccounts (setMasterKillSwitch initialAMState true)
        [{ id := 7, name := "A" }]) 9 = false := by
  refine ⟨by decide, ?_, ?_⟩
  · have h := (canTrade_masterAndAccount
      (initializeAccounts (setMasterKillSwitch initialAMState true)
        [{ id := 7, name := "A" }]) 7).1
      (mkAccountState { id := 7, name := "A" }) (by decide)
    rw [h]; decide
  · have h := (canTrade_masterAndAccount
      (initializeAccounts (setMasterKillSwitch initialAMState true)
        [{ id := 7, name := "A" }]) 9).2 (by decide)
    exact h

/-- C2: the directive handler submits only after a positive canTrade
check; with the client initialized, a negative check produces exactly
the rejection notification with reason "Kill switch enabled" and no
submit call, and a positive check produces the submit call followed by
the forwarded outcome (order-submitted on success, order-failed with the
result's error on failure). -/
theorem handleTradeDirective_gating (st : OrchestratorState) (d : TradeDirective)
    (submit : SubmitParams → OrderResult) :
    ((handleTradeDirective st d submit).submitCalled = true → canTrade st.am d.accountId = true)
    ∧ (st.isTopstepInit = true → canTrade st.am d.accountId = false →
        handleTradeDirective st d submit =
          { submitCalled := false
            notifications := [UiNotif.signalRejected d.directiveId "Kill switch enabled"] })
    ∧ (st.isTopstepInit = true → canTrade st.am d.accountId = true →
        handleTradeDirective st d submit =
          { submitCalled := true
            notifications := [UiNotif.signalReceived d.directiveId,
              orderOutcomeNotif d (submit (toSubmitParams d))] }) := by
  cases hinit : st.isTopstepInit with
  | false => simp [handleTradeDirective, hinit]
  | true =>
    cases hct : canTrade st.am d.accountId with
    | false => simp [handleTradeDirective, hinit, hct]
    | true => simp [handleTradeDirective, hinit, hct]

/-- Witness for C2: a concrete initialized orchestrator over account 3;
with the master switch off the directive is rejected with reason
"Kill switch enabled" and no submit happens, with it on the order is
submitted and the success result forwarded. -/
theorem handleTradeDirective_gating_witness :
    handleTradeDirective
        { isTopstepInit := true
          am := initializeAccounts initialAMState [{ id := 3, name := "A" }] }
        { directiveId := "d1", accountId := 3, symbol := "ES", action := "ENTRY_LONG"
          price := 100, contracts := 2, reason := "", timestamp := "t" }
        (fun _ => { success := true, orderId := some 11, status := some 1 })
      = { submitCalled := false
          notifications := [UiNotif.signalRejected "d1" "Kill switch enabled"] }
    ∧ handleTradeDirective
        { isTopstepInit := true
          am := setMasterKillSwitch (initializeAccounts initialAMState [{ id := 3, name := "A" }]) true }
        { directiveId := "d1", accountId := 3, symbol := "ES", action := "ENTRY_LONG"
          price := 100, contracts := 2, reason := "", timestamp := "t" }
        (fun _ => { success := true, orderId := some 11, status := some 1 })
      = { submitCalled := true
          notifications := [UiNotif.signalReceived "d1",
            UiNotif.orderSubmitted "d1" { success := true, orderId := some 11, status := some 1 }] } := by
  constructor
  · exact (handleTradeDirective_gating
      { isTopstepInit := true
        am := initializeAccounts initialAMState [{ id := 3, name := "A" }] }
      { directiveId := "d1", accountId := 3, symbol := "ES", action := "ENTRY_LONG"
        price := 100, contracts := 2, reason := "", timestamp := "t" }
      (fun _ => { success := true, orderId := some 11, status := some 1 })).2.1 rfl (by decide)
  · have h := (handleTradeDirective_gating
      { isTopstepInit := true
        am := setMasterKillSwitch (initializeAccounts initialAMState [{ id := 3, name := "A" }]) true }
      { directiveId := "d1", accountId := 3, symbol := "ES", action := "ENTRY_LONG"
        price := 100, contracts := 2, reason := "", timestamp := "t" }
      (fun _ => { success := true, orderId := some 11, status := some 1 })).2.2 rfl (by decide)
    simpa [orderOutcomeNotif] using h

/-- C5: the displayed state is Warning, not Connected, whenever the
broker-side state is Connected but the cloud channel is anything other
than connected; and Connected is displayed exactly when both the
broker-side state is Connected and the cloud channel is connected. -/
theorem effectiveState_requires_both (s : AppState) (c : CloudConnState) :
    (effectiveState AppState.connected c = AppState.warning ↔ c ≠ CloudConnState.connected)
    ∧ (effectiveState s c = AppState.connected ↔
        s = AppState.connected ∧ c = CloudConnState.connected) := by
  cases s <;> cases c <;> decide

/-- Helper: no single non-enabling operation turns the master switch on. -/
theorem applyOp_master_off (s : AMState) (op : AMOp)
    (hs : s.masterKillSwitch = false) (hop : isMasterEnable op = false) :
    (applyOp s op).masterKillSwitch = false := by
  cases op with
  | initAccounts list => simpa [applyOp, initializeAccounts] using hs
  | update accountId u now =>
    cases h : mapGet s.accounts accountId <;> simp [applyOp, updateAccount, h, hs]
  | fill accountId f =>
    cases h : mapGet s.accounts accountId <;> simp [applyOp, addFill, h, hs]
  | setTrading accountId enabled =>
    cases h : mapGet s.accounts accountId <;> simp [applyOp, setAccountTrading, h, hs]
  | setMaster enabled =>
    cases enabled with
    | true => simp [isMasterEnable] at hop
    | false => simp [applyOp, setMasterKillSwitch]
  | doReset => simp [applyOp, reset]

/-- Helper: a sequence of non-enabling operations keeps the master
switch off. -/
theorem applyOps_master_off (ops : List AMOp) (s : AMState)
    (hs : s.masterKillSwitch = false) (hops : ∀ op ∈ ops, isMasterEnable op = false) :
    (applyOps s ops).masterKillSwitch = false := by
  induction ops generalizing s with
  | nil => simpa [applyOps] using hs
  | cons op rest ih =>
    have h1 : (applyOp s op).masterKillSwitch = false :=
      applyOp_master_off s op hs (hops op (by simp))
    have h2 := ih (applyOp s op) h1 (fun o ho => hops o (by simp [ho]))
    simpa [applyOps] using h2

/-- Helper: with the master switch off, no account can trade. -/
theorem canTrade_master_off (s : AMState) (accountId : Nat)
    (hs : s.masterKillSwitch = false) : canTrade s accountId = false := by
  simp [canTrade, hs]

/-- C3 (amended): the master kill switch is false at module load and
after reset(), and across any sequence of account-manager operations
containing no explicit setMasterKillSwitch(true) it stays false, with
canTrade false for every account id.  (The unamended claim fails
because the client's init routine itself performs the enabling call —
see the counterexample.) -/
theorem masterKillSwitch_stays_false_without_enable (s : AMState) (ops : List AMOp)
    (hops : ∀ op ∈ ops, isMasterEnable op = false) :
    initialAMState.masterKillSwitch = false
    ∧ (reset s).masterKillSwitch = false
    ∧ (applyOps initialAMState ops).masterKillSwitch = false
    ∧ ∀ accountId, canTrade (applyOps initialAMState ops) accountId = false := by
  have hoff : (applyOps initialAMState ops).masterKillSwitch = false :=
    applyOps_master_off ops initialAMState rfl hops
  exact ⟨rfl, rfl, hoff, fun accountId => canTrade_master_off _ accountId hoff⟩

/-- Witness for C3 (amended): a concrete operation sequence — load an
account, enable its per-account flag, disable the master switch — after
which the master switch is off and the account cannot trade. -/
theorem masterKillSwitch_stays_false_without_enable_witness :
    (∀ op ∈ [AMOp.initAccounts [{ id := 1, name := "A" }],
        AMOp.setTrading 1 true, AMOp.setMaster false], isMasterEnable op = false)
    ∧ (applyOps initialAMState [AMOp.initAccounts [{ id := 1, name := "A" }],
        AMOp.setTrading 1 true, AMOp.setMaster false]).masterKillSwitch = false
    ∧ canTrade (applyOps initialAMState [AMOp.initAccounts [{ id := 1, name := "A" }],
        AMOp.setTrading 1 true, AMOp.setMaster false]) 1 = false := by
  refine ⟨by decide, ?_, ?_⟩
  · exact (masterKillSwitch_stays_false_without_enable initialAMState
      [AMOp.initAccounts [{ id := 1, name := "A" }],
        AMOp.setTrading 1 true, AMOp.setMaster false] (by decide)).2.2.1
  · exact (masterKillSwitch_stays_false_without_enable initialAMState
      [AMOp.initAccounts [{ id := 1, name := "A" }],
        AMOp.setTrading 1 true, AMOp.setMaster false] (by decide)).2.2.2 1

/-- C3 counterexample: signalRService's init tail — initializeAccounts
followed by its own setMasterKillSwitch(true) — leaves the master switch
enabled and the freshly loaded account able to trade, although no
operator or cloud enable command occurred. -/
theorem clientInit_enables_without_command :
    (clientInitAndEnable initialAMState [{ id := 1, name := "A" }]).masterKillSwitch = true
    ∧ canTrade (clientInitAndEnable initialAMState [{ id := 1, name := "A" }]) 1 = true := by
  decide

/-- Helper: folding the per-account Map writes of initializeAccounts
leaves keys outside the written list untouched. -/
theorem foldl_mapSet_not_mem (list : List InputAccount) (m : List (Nat × AccountState))
    (accountId : Nat) (h : accountId ∉ list.map InputAccount.id) :
    mapGet (list.foldl (fun m a => mapSet m a.id (mkAccountState a)) m) accountId
      = mapGet m accountId := by
  induction list generalizing m with
  | nil => simp
  | cons a rest ih =>
    simp only [List.map_cons, List.mem_cons, not_or] at h
    simp only [List.foldl_cons]
    rw [ih _ h.2, mapGet_mapSet_ne _ _ _ _ (fun he => h.1 he.symm)]

/-- Helper: after initializeAccounts, a key from the written list maps
to the registry entry built from (the last occurrence of) that input. -/
theorem initializeAccounts_lookup_mem (s : AMState) (list : List InputAccount)
    (accountId : Nat) (h : accountId ∈ list.map InputAccount.id) :
    ∃ inp, inp ∈ list ∧ inp.id = accountId ∧
      mapGet (initializeAccounts s list).accounts accountId = some (mkAccountState inp) := by
  induction list generalizing s with
  | nil => simp at h
  | cons a rest ih =>
    by_cases hr : accountId ∈ rest.map InputAccount.id
    · obtain ⟨inp, hmem, hid, hget⟩ :=
        ih { s with accounts := mapSet s.accounts a.id (mkAccountState a) } hr
      refine ⟨inp, by simp [hmem], hid, ?_⟩
      simpa [initializeAccounts] using hget
    · have ha : a.id = accountId := by
        simp only [List.map_cons, List.mem_cons] at h
        rcases h with h | h
        · exact h.symm
        · exact absurd h hr
      refine ⟨a, by simp, ha, ?_⟩
      show mapGet ((a :: rest).foldl (fun m x => mapSet m x.id (mkAccountState x)) s.accounts)
        accountId = some (mkAccountState a)
      rw [List.foldl_cons, foldl_mapSet_not_mem rest _ accountId hr, ha,
        mapGet_mapSet_self]

/-- C4 (amended): initializeAccounts upserts each supplied account into
the registry — every id appearing in the list is afterwards mapped to an
entry with tradingEnabled = true, whatever tradingEnabled or canTrade
value the raw input object carried — while entries whose id is absent
from the list survive unchanged from before the call. -/
theorem initializeAccounts_upsert (s : AMState) (list : List InputAccount) (accountId : Nat) :
    (accountId ∈ list.map InputAccount.id →
      ∃ a, mapGet (initializeAccounts s list).accounts accountId = some a
        ∧ a.tradingEnabled = true)
    ∧ (accountId ∉ list.map InputAccount.id →
      mapGet (initializeAccounts s list).accounts accountId = mapGet s.accounts accountId) := by
  constructor
  · intro h
    obtain ⟨inp, _, _, hget⟩ := initializeAccounts_lookup_mem s list accountId h
    exact ⟨mkAccountState inp, hget, rfl⟩
  · intro h
    show mapGet (list.foldl (fun m a => mapSet m a.id (mkAccountState a)) s.accounts) accountId
      = mapGet s.accounts accountId
    exact foldl_mapSet_not_mem list s.accounts accountId h

/-- Witness for C4 (amended): an input account carrying
tradingEnabled = false and canTrade = false is stored with
tradingEnabled = true, and an id absent from the list is untouched. -/
theorem initializeAccounts_upsert_witness :
    (5 ∈ ([{ id := 5, name := "X", tradingEnabled := some false, canTradeFlag := some false }]
        : List InputAccount).map InputAccount.id)
    ∧ (∃ a, mapGet (initializeAccounts initialAMState
        [{ id := 5, name := "X", tradingEnabled := some false, canTradeFlag := some false }]).accounts 5
          = some a ∧ a.tradingEnabled = true)
    ∧ mapGet (initializeAccounts initialAMState
        [{ id := 5, name := "X", tradingEnabled := some false, canTradeFlag := some false }]).accounts 9
        = mapGet initialAMState.accounts 9 := by
  refine ⟨by decide, ?_, ?_⟩
  · exact (initializeAccounts_upsert initialAMState
      [{ id := 5, name := "X", tradingEnabled := some false, canTradeFlag := some false }] 5).1
      (by decide)
  · exact (initializeAccounts_upsert initialAMState
      [{ id := 5, name := "X", tradingEnabled := some false, canTradeFlag := some false }] 9).2
      (by decide)

/-- C4 counterexample: initializeAccounts does not clear the Map, so an
account loaded by a previous initialization (id 1) is still present —
and still retrievable — after a new initialization whose list holds only
id 2, contradicting "no account from a previous initialization survives
if absent from the new list". -/
theorem initializeAccounts_preserves_old_entries :
    mapGet (initializeAccounts (initializeAccounts initialAMState [{ id := 1, name := "A" }])
        [{ id := 2, name := "B" }]).accounts 1
      = some (mkAccountState { id := 1, name := "A" })
    ∧ (mapGet (initializeAccounts (initializeAccounts initialAMState [{ id := 1, name := "A" }])
        [{ id := 2, name := "B" }]).accounts 1).isSome = true := by
  decide

/-- C10: after initializeAccounts, every id written by the call maps to
an entry with pnl = 0, openPositions = [] and recentFills = [],
whatever PNL, position or fill values the raw input objects carried. -/
theorem initializeAccounts_zeroes_snapshot (s : AMState) (list : List InputAccount)
    (accountId : Nat) (h : accountId ∈ list.map InputAccount.id) :
    ∃ a, mapGet (initializeAccounts s list).accounts accountId = some a
      ∧ a.pnl = 0 ∧ a.openPositions = [] ∧ a.recentFills = [] := by
  obtain ⟨inp, _, _, hget⟩ := initializeAccounts_lookup_mem s list accountId h
  exact ⟨mkAccountState inp, hget, rfl, rfl, rfl⟩

/-- Witness for C10: an input account carrying a nonzero pnl, an open
position and a fill is stored with all three snapshot fields reset. -/
theorem initializeAccounts_zeroes_snapshot_witness :
    (6 ∈ ([{ id := 6, name := "Y", pnl := some 999, openPositions := some [{ posId := 1 }], recentFills := some [{ fillId := 2 }], balance := some 5 }] : List InputAccount).map InputAccount.id)
    ∧ ∃ a, mapGet (initializeAccounts initialAMState
          [{ id := 6, name := "Y", pnl := some 999, openPositions := some [{ posId := 1 }], recentFills := some [{ fillId := 2 }], balance := some 5 }]).accounts 6 = some a
      ∧ a.pnl = 0 ∧ a.openPositions = [] ∧ a.recentFills = [] := by
  refine ⟨by decide, ?_⟩
  exact initializeAccounts_zeroes_snapshot initialAMState
    [{ id := 6, name := "Y", pnl := some 999, openPositions := some [{ posId := 1 }], recentFills := some [{ fillId := 2 }], balance := some 5 }] 6 (by decide)

/-- Helper: the token-acquisition step can make auth network calls but
never an order placement. -/
theorem getAccessToken_no_orderPlace (st : AuthState) (env : AuthEnv) :
    ((getAccessToken st env).2.2).any isOrderPlace = false := by
  rcases st with ⟨ct, te⟩
  rcases ct with _ | tok
  · rcases h : env.loginResp with e | t <;>
      simp [getAccessToken, loginWithApiKey, h, isOrderPlace]
  · rcases te with _ | exp
    · rcases hv : env.validateResp with _ | v
      · rcases h : env.loginResp with e | t <;>
          simp [getAccessToken, loginWithApiKey, hv, h, isOrderPlace]
      · simp [getAccessToken, hv, isOrderPlace]
    · by_cases hlt : env.now < exp
      · simp [getAccessToken, hlt]
      · rcases hv : env.validateResp with _ | v
        · rcases h : env.loginResp with e | t <;>
            simp [getAccessToken, loginWithApiKey, hv, h, hlt, isOrderPlace]
        · simp [getAccessToken, hv, hlt, isOrderPlace]

/-- C6 (amended): the action table is exactly entry-long→buy,
entry-short→sell, exit→close, exit-long→sell, exit-short→buy; an
unmapped action yields the "Invalid action" failure with no
order-placement call (the preceding token-acquisition step may still
have made auth network calls, and if it fails the result reflects that
failure instead); and the end-to-end scenario — account 234567,
ENTRY_LONG, ES, 2 contracts, with a valid cached token — attempts
submission of side 0 (buy), contract CON.F.US.EP.Z25, market type 2,
size 2. -/
theorem submitOrder_action_table (st : AuthState) (env : AuthEnv)
    (orderResp : Except String (Nat × Nat)) (p : SubmitParams) (tok : String) (exp : Int) :
    (mapActionToSide "ENTRY_LONG" = some "BUY"
      ∧ mapActionToSide "ENTRY_SHORT" = some "SELL"
      ∧ mapActionToSide "EXIT" = some "CLOSE"
      ∧ mapActionToSide "EXIT_LONG" = some "SELL"
      ∧ mapActionToSide "EXIT_SHORT" = some "BUY")
    ∧ (mapActionToSide p.action = none →
        ((submitOrder st env orderResp p).2.2).any isOrderPlace = false
        ∧ (∀ t, (getAccessToken st env).1 = Except.ok t →
            (submitOrder st env orderResp p).1 =
              { success := false, error := some ("Invalid action: " ++ p.action) }))
    ∧ (env.now < exp →
        (submitOrder { currentToken := some tok, tokenExpiryTime := some exp } env orderResp
            { accountId := 234567, action := "ENTRY_LONG", symbol := "ES", lots := 2 }).2.2
          = [NetCall.orderPlace 234567 "CON.F.US.EP.Z25" 0 2 2]) := by
  refine ⟨by decide, ?_, ?_⟩
  · intro haction
    rcases hga : getAccessToken st env with ⟨r, st', calls⟩
    have hcalls : calls.any isOrderPlace = false := by
      have := getAccessToken_no_orderPlace st env
      rw [hga] at this
      exact this
    rcases r with e | t
    · exact ⟨by simp [submitOrder, hga, hcalls], by intro t ht; simp at ht⟩
    · refine ⟨by simp [submitOrder, hga, haction, hcalls], ?_⟩
      intro t' ht
      simp [submitOrder, hga, haction]
  · intro hlt
    rcases orderResp with e | ⟨oid, stat⟩ <;>
      simp [submitOrder, getAccessToken, hlt, mapActionToSide, mapSymbolToContractId]

/-- Witness for C6 (amended): the unmapped action "FOO" under a valid
cached token fails with "Invalid action: FOO" and no order placement,
and the ENTRY_LONG/ES scenario produces exactly the mapped order call. -/
theorem submitOrder_action_table_witness :
    mapActionToSide "FOO" = none
    ∧ (((submitOrder { currentToken := some "tok", tokenExpiryTime := some 100 }
        { now := 0, validateResp := none, loginResp := Except.ok "tok" } (Except.ok (1, 1))
        { accountId := 234567, action := "FOO", symbol := "ES", lots := 2 }).2.2).any isOrderPlace
          = false
      ∧ (submitOrder { currentToken := some "tok", tokenExpiryTime := some 100 }
        { now := 0, validateResp := none, loginResp := Except.ok "tok" } (Except.ok (1, 1))
        { accountId := 234567, action := "FOO", symbol := "ES", lots := 2 }).1
          = { success := false, error := some ("Invalid action: " ++ "FOO") })
    ∧ (submitOrder { currentToken := some "tok", tokenExpiryTime := some 100 }
        { now := 0, validateResp := none, loginResp := Except.ok "tok" } (Except.ok (1, 1))
        { accountId := 234567, action := "ENTRY_LONG", symbol := "ES", lots := 2 }).2.2
      = [NetCall.orderPlace 234567 "CON.F.US.EP.Z25" 0 2 2] := by
  refine ⟨by decide, ?_, ?_⟩
  · have h := (submitOrder_action_table { currentToken := some "tok", tokenExpiryTime := some 100 }
      { now := 0, validateResp := none, loginResp := Except.ok "tok" } (Except.ok (1, 1))
      { accountId := 234567, action := "FOO", symbol := "ES", lots := 2 } "tok" 100).2.1
      (by decide)
    exact ⟨h.1, h.2 "tok" rfl⟩
  · exact (submitOrder_action_table { currentToken := some "tok", tokenExpiryTime := some 100 }
      { now := 0, validateResp := none, loginResp := Except.ok "tok" } (Except.ok (1, 1))
      { accountId := 234567, action := "ENTRY_LONG", symbol := "ES", lots := 2 } "tok" 100).2.2
      (by decide)

/-- C6 counterexample: the claim's "no network call made" fails — with
no cached broker token, submitOrder with the unmapped action "FOO"
performs the /api/Auth/loginKey network call before failing; and when
that login fails, the result's error is the login error, not the
"Invalid action" message. -/
theorem submitOrder_invalid_action_network_calls :
    (submitOrder { currentToken := none, tokenExpiryTime := none }
        { now := 0, validateResp := none, loginResp := Except.ok "tok" } (Except.ok (1, 1))
        { accountId := 234567, action := "FOO", symbol := "ES", lots := 2 }).2.2
      = [NetCall.authLogin]
    ∧ ([NetCall.authLogin] : List NetCall) ≠ []
    ∧ (submitOrder { currentToken := none, tokenExpiryTime := none }
        { now := 0, validateResp := none, loginResp := Except.error "Network Error" }
        (Except.ok (1, 1))
        { accountId := 234567, action := "FOO", symbol := "ES", lots := 2 }).1.error
      = some "Network Error"
    ∧ "Network Error" ≠ "Invalid action: FOO" := by
  refine ⟨by decide, by decide, by decide, by decide⟩

/-- C7 (amended): submitOrder with a symbol outside the fixed table
never places an order over the network and always returns an
unsuccessful result without throwing (the model is a total function);
when the token-acquisition step succeeds, the result is exactly
success:false with error "Unknown symbol: <symbol>" (when it fails the
error reflects the auth failure, and auth network calls may have been
made). -/
theorem submitOrder_unknown_symbol (st : AuthState) (env : AuthEnv)
    (orderResp : Except String (Nat × Nat)) (p : SubmitParams) (side : String)
    (hside : mapActionToSide p.action = some side)
    (hsym : mapSymbolToContractId p.symbol = none) :
    ((submitOrder st env orderResp p).2.2).any isOrderPlace = false
    ∧ (submitOrder st env orderResp p).1.success = false
    ∧ (∀ t, (getAccessToken st env).1 = Except.ok t →
        (submitOrder st env orderResp p).1 =
          { success := false, error := some ("Unknown symbol: " ++ p.symbol) }) := by
  rcases hga : getAccessToken st env with ⟨r, st', calls⟩
  have hcalls : calls.any isOrderPlace = false := by
    have := getAccessToken_no_orderPlace st env
    rw [hga] at this
    exact this
  rcases r with e | t
  · exact ⟨by simp [submitOrder, hga, hcalls], by simp [submitOrder, hga],
      by intro t ht; simp at ht⟩
  · exact ⟨by simp [submitOrder, hga, hside, hsym, hcalls],
      by simp [submitOrder, hga, hside, hsym],
      by intro t' ht; simp [submitOrder, hga, hside, hsym]⟩

/-- Witness for C7 (amended): symbol "XYZ" with a valid cached token
yields {success := false, error := "Unknown symbol: XYZ"} and no order
placement. -/
theorem submitOrder_unknown_symbol_witness :
    mapActionToSide "ENTRY_LONG" = some "BUY"
    ∧ mapSymbolToContractId "XYZ" = none
    ∧ ((submitOrder { currentToken := some "tok", tokenExpiryTime := some 100 }
        { now := 0, validateResp := none, loginResp := Except.ok "tok" } (Except.ok (1, 1))
        { accountId := 1, action := "ENTRY_LONG", symbol := "XYZ", lots := 1 }).2.2).any isOrderPlace
      = false
    ∧ (submitOrder { currentToken := some "tok", tokenExpiryTime := some 100 }
        { now := 0, validateResp := none, loginResp := Except.ok "tok" } (Except.ok (1, 1))
        { accountId := 1, action := "ENTRY_LONG", symbol := "XYZ", lots := 1 }).1
      = { success := false, error := some ("Unknown symbol: " ++ "XYZ") } := by
  have h := submitOrder_unknown_symbol { currentToken := some "tok", tokenExpiryTime := some 100 }
    { now := 0, validateResp := none, loginResp := Except.ok "tok" } (Except.ok (1, 1))
    { accountId := 1, action := "ENTRY_LONG", symbol := "XYZ", lots := 1 } "BUY"
    (by decide) (by decide)
  exact ⟨by decide, by decide, h.1, h.2.2 "tok" rfl⟩

/-- C7 counterexample: the claim's "zero network calls" fails — with no
cached broker token, submitOrder with the unmapped symbol "XYZ" performs
the /api/Auth/loginKey network call; and when that login fails the error
is the login error rather than "Unknown symbol: XYZ". -/
theorem submitOrder_unknown_symbol_network_calls :
    (submitOrder { currentToken := none, tokenExpiryTime := none }
        { now := 0, validateResp := none, loginResp := Except.ok "tok" } (Except.ok (1, 1))
        { accountId := 1, action := "ENTRY_LONG", symbol := "XYZ", lots := 1 }).2.2
      = [NetCall.authLogin]
    ∧ ([NetCall.authLogin] : List NetCall) ≠ []
    ∧ (submitOrder { currentToken := none, tokenExpiryTime := none }
        { now := 0, validateResp := none, loginResp := Except.error "Network Error" }
        (Except.ok (1, 1))
        { accountId := 1, action := "ENTRY_LONG", symbol := "XYZ", lots := 1 }).1.error
      = some "Network Error"
    ∧ "Network Error" ≠ "Unknown symbol: XYZ" := by
  refine ⟨by decide, by decide, by decide, by decide⟩

/-- Helper: a filter that rejects at least one element strictly shrinks
the list. -/
theorem length_filter_lt_of_exists_not {α : Type} (p : α → Bool) (l : List α)
    (h : ∃ x ∈ l, p x = false) : (l.filter p).length < l.length := by
  induction l with
  | nil => simp at h
  | cons a rest ih =>
    rcases h with ⟨x, hx, hpx⟩
    rcases List.mem_cons.mp hx with rfl | hxr
    · rw [List.filter_cons, hpx]
      simp only [Bool.false_eq_true, if_false, List.length_cons]
      exact Nat.lt_succ_of_le (List.length_filter_le _ _)
    · by_cases hpa : p a = true
      · rw [List.filter_cons, hpa]
        simp only [if_true, List.length_cons]
        exact Nat.succ_lt_succ (ih ⟨x, hxr, hpx⟩)
      · rw [List.filter_cons, Bool.of_not_eq_true hpa]
        simp only [Bool.false_eq_true, if_false, List.length_cons]
        exact Nat.lt_succ_of_le (List.length_filter_le _ _)

/-- Helper: while the recorded attempts stay below the maximum and all
times lie within one window of each other, every checkLimit call
succeeds and appends its timestamp. -/
theorem runCalls_all_ok (N : Nat) (W : Int) (acc ts : List Int)
    (hlen : acc.length + ts.length ≤ N)
    (hwin : ∀ x ∈ acc ++ ts, ∀ y ∈ acc ++ ts, x - y < W) :
    runCalls { maxRequests := N, windowMs := W, requests := acc } ts
      = ({ maxRequests := N, windowMs := W, requests := acc ++ ts },
          List.replicate ts.length true) := by
  induction ts generalizing acc with
  | nil => simp [runCalls]
  | cons t rest ih =>
    have hfil : acc.filter (fun x => decide (t - x < W)) = acc := by
      apply List.filter_eq_self.mpr
      intro a ha
      simp only [decide_eq_true_eq]
      exact hwin t (by simp) a (by simp [ha])
    have hlen' : acc.length < N := by
      simp only [List.length_cons] at hlen
      omega
    have hstep : checkLimit { maxRequests := N, windowMs := W, requests := acc } t
        = ({ maxRequests := N, windowMs := W, requests := acc ++ [t] }, Except.ok ()) := by
      unfold checkLimit
      dsimp only
      rw [hfil, if_neg (Nat.not_le.mpr hlen')]
    have hmem : ∀ z : Int, z ∈ (acc ++ [t]) ++ rest ↔ z ∈ acc ++ t :: rest := by
      intro z
      simp only [List.mem_append, List.mem_cons, List.mem_singleton]
      tauto
    have hrec := ih (acc ++ [t])
      (by simp at hlen ⊢; omega)
      (fun x hx y hy => hwin x ((hmem x).mp hx) y ((hmem y).mp hy))
    calc runCalls { maxRequests := N, windowMs := W, requests := acc } (t :: rest)
        = ((runCalls { maxRequests := N, windowMs := W, requests := acc ++ [t] } rest).1,
            true :: (runCalls { maxRequests := N, windowMs := W, requests := acc ++ [t] } rest).2) := by
          simp [runCalls, hstep, Except.toBool]
      _ = ({ maxRequests := N, windowMs := W, requests := acc ++ t :: rest },
            List.replicate (t :: rest).length true) := by
          rw [hrec]
          simp [List.replicate_succ]

/-- C8: for a limiter with maxRequests = N over window W, starting
empty: N calls at times within one window all succeed, each recording
its timestamp; the (N+1)th call within the window fails with the
rate-limit error carrying the seconds-until-reset figure, recording
nothing new (the pruned timestamp list is unchanged); and once W has
elapsed since the first recorded call, a further call succeeds again. -/
theorem checkLimit_window_behaviour (N : Nat) (W : Int) (ts : List Int) (u v : Int)
    (hN : ts.length = N)
    (hwin : ∀ x ∈ ts ++ [u], ∀ y ∈ ts ++ [u], x - y < W)
    (hfirst : ∃ t1, ts.head? = some t1 ∧ W ≤ v - t1) :
    runCalls { maxRequests := N, windowMs := W, requests := [] } ts
      = ({ maxRequests := N, windowMs := W, requests := ts }, List.replicate N true)
    ∧ checkLimit { maxRequests := N, windowMs := W, requests := ts } u
      = ({ maxRequests := N, windowMs := W, requests := ts },
          Except.error (rateLimitMessage (secondsUntilReset ((ts.min?).getD 0) W u)))
    ∧ (checkLimit { maxRequests := N, windowMs := W, requests := ts } v).2 = Except.ok () := by
  refine ⟨?_, ?_, ?_⟩
  · have h := runCalls_all_ok N W [] ts (by simpa using hN.le)
      (fun x hx y hy => hwin x (by simp [List.mem_append.mp, hx]; tauto) y
        (by simp at hy ⊢; tauto))
    simpa [hN] using h
  · have hfil : ts.filter (fun x => decide (u - x < W)) = ts := by
      apply List.filter_eq_self.mpr
      intro a ha
      simp only [decide_eq_true_eq]
      exact hwin u (by simp) a (by simp [ha])
    unfold checkLimit
    simp only [hfil]
    rw [if_pos (by rw [hN])]
  · rcases hfirst with ⟨t1, ht1, hW⟩
    have ht1mem : t1 ∈ ts := by
      cases ts with
      | nil => simp at ht1
      | cons a rest =>
        simp only [List.head?_cons, Option.some.injEq] at ht1
        simp [← ht1]
    have hshrink : (ts.filter (fun x => decide (v - x < W))).length < ts.length := by
      apply length_filter_lt_of_exists_not
      exact ⟨t1, ht1mem, by simp; omega⟩
    have hlt : (ts.filter (fun x => decide (v - x < W))).length < N := hN ▸ hshrink
    unfold checkLimit
    dsimp only
    rw [if_neg (Nat.not_le.mpr hlt)]

/-- Witness for C8: N = 2, W = 100ms, calls at t = 0 and t = 10 succeed,
the third call at t = 50 fails with the 1-second-until-reset message and
records nothing, and a call at t = 110 (100ms after the first) succeeds. -/
theorem checkLimit_window_behaviour_witness :
    runCalls { maxRequests := 2, windowMs := 100, requests := [] } [0, 10]
      = ({ maxRequests := 2, windowMs := 100, requests := [0, 10] }, List.replicate 2 true)
    ∧ checkLimit { maxRequests := 2, windowMs := 100, requests := [0, 10] } 50
      = ({ maxRequests := 2, windowMs := 100, requests := [0, 10] },
          Except.error (rateLimitMessage (secondsUntilReset ((([0, 10] : List Int).min?).getD 0) 100 50)))
    ∧ (checkLimit { maxRequests := 2, windowMs := 100, requests := [0, 10] } 110).2
      = Except.ok () := by
  exact checkLimit_window_behaviour 2 100 [0, 10] 50 110 rfl
    (by decide) ⟨0, rfl, by decide⟩

/-- C9 (amended): on a successful refresh the result takes its access
token from the server response but its refresh-token field is always the
caller's old refresh token — whatever refresh-token field the response
carried (the quantification over `respRefresh` shows the response's
refresh token is never read).  Since main.js persists exactly
`refreshResult.refreshToken`, the old token is also what is persisted. -/
theorem refreshAccessToken_keeps_old_refresh (currentRefreshToken newAccess : String)
    (respRefresh : Option String) :
    refreshAccessToken currentRefreshToken
        (some { accessToken := some newAccess, refreshToken := respRefresh })
      = { success := true, accessToken := some newAccess,
          refreshToken := some currentRefreshToken } := rfl

/-- C9 counterexample: when the server response rotates the refresh
token, refreshAccessToken still returns the old token, not the rotated
one — contradicting "that rotated value (not the old one) is what is
returned and persisted". -/
theorem refreshAccessToken_ignores_rotated_token :
    (refreshAccessToken "oldRT"
        (some { accessToken := some "newAT", refreshToken := some "rotatedRT" })).refreshToken
      = some "oldRT"
    ∧ (some "oldRT" : Option String) ≠ some "rotatedRT" := by
  exact ⟨rfl, by decide⟩
